import Mathlib

/-!
Verification of the process-supervisor in `src/Work.py`.

The Python program launches a child process, relays its combined output to a
log sink, optionally kills it on a wall-clock timeout, optionally restarts it
on exit, and reports session statistics at the end.  This file gives a shallow
embedding of the statistics record, the termination controller
(`terminate_process`, Work.py lines 100-118), the output relay
(`monitor_output`, lines 94-97) and the supervision loop (`ProcessMonitor.run`,
lines 180-227), and proves the specified properties about them.

Modelling conventions:
- A child process handle is reduced to the observations the Python code makes
  of it: whether a non-blocking `poll()` reports it still running, whether
  `terminate()` raises an internal error, and how long after a graceful
  termination request it would exit voluntarily.
- Wall-clock durations are rationals (Python uses floats; no float rounding is
  relevant to any claim).
- One loop iteration of `ProcessMonitor.run` supervises one process instance;
  an instance is described by an `InstanceSpec` recording how the spawned
  process behaves.  External interruption (KeyboardInterrupt) is injected at
  an explicit program point of an explicit iteration.
- Side effects other than statistics are reified: lines written to the log
  sink accumulate in a list, and signals sent / report generation / fatal
  exit are recorded as an event list.
-/

/-- Embeds the `ProcessConfig` dataclass (Work.py lines 17-23).  The command
token list and log file name play no role in the supervised behaviour beyond
spawning, which the model abstracts as `InstanceSpec.spawnOk`. -/
structure ProcessConfig where
  command : List String
  logfile : String
  restart : Bool
  timeout : Option Nat
deriving DecidableEq

/-- Embeds the `RunStatistics` dataclass (Work.py lines 26-33). -/
structure RunStatistics where
  total_runtime : ℚ
  restarts : Nat
  terminations_due_to_timeout : Nat
  crashes : Nat
  lines_logged : Nat
deriving DecidableEq

/-- The dataclass defaults of `RunStatistics` (Work.py lines 29-33), the state
at session start (`ProcessMonitor.__init__`, line 146). -/
def initStats : RunStatistics :=
  { total_runtime := 0, restarts := 0, terminations_due_to_timeout := 0,
    crashes := 0, lines_logged := 0 }

/-- Observable behaviour of a `subprocess.Popen` handle, as far as
`terminate_process` interrogates it: `running` is the result of the
non-blocking `poll() is None` check; `termRaises` says whether the termination
steps raise an internal error (caught and logged at line 114-115);
`voluntaryExitTime` is the delay, in seconds after the graceful `terminate()`
request, until the process would exit on its own (`none` when it would never
exit voluntarily). -/
structure ProcHandle where
  running : Bool
  termRaises : Bool
  voluntaryExitTime : Option ℚ
deriving DecidableEq

/-- The grace period of `process.wait(timeout=5)` at Work.py line 107. -/
def GRACE_SECONDS : ℚ := 5

/-- Whether `process.wait(timeout=5)` returns before raising
`TimeoutExpired`: the process exits voluntarily within the grace period. -/
def exitsWithinGrace (p : ProcHandle) : Bool :=
  match p.voluntaryExitTime with
  | some t => decide (t ≤ GRACE_SECONDS)
  | none => false

/-- Reified observable actions of the supervisor: signals sent to the child,
spawn outcomes, report generation, recorded in occurrence order. -/
inductive Event where
  | spawned
  | spawnFailed
  | sigTerm
  | sigKill
  | report
deriving DecidableEq

/-- Result of one `terminate_process` call: the handle afterwards, the
statistics afterwards, and the signals that were sent. -/
structure TermResult where
  handle : ProcHandle
  stats : RunStatistics
  signals : List Event
deriving DecidableEq

/-- Embeds `terminate_process` (Work.py lines 100-118).  The Python body is
guarded by `if process and process.poll() is None:`; inside it, `terminate()`
is sent, then `wait(timeout=5)`; on `TimeoutExpired` the process is killed and
waited for without bound.  Any internal error is caught and logged (line
114-115), and the `finally` block (lines 116-118) increments the timeout
counter when `due_to_timeout` is set.  Note the `finally` block is nested
inside the `poll()` guard, so nothing at all happens on an already-exited
handle. -/
def terminate_process (p : ProcHandle) (stats : RunStatistics)
    (due_to_timeout : Bool) : TermResult :=
  if p.running then
    let step :=
      if p.termRaises then
        (p, ([] : List Event))
      else if exitsWithinGrace p then
        ({ p with running := false }, [Event.sigTerm])
      else
        ({ p with running := false }, [Event.sigTerm, Event.sigKill])
    let stats1 :=
      if due_to_timeout then
        { stats with terminations_due_to_timeout :=
            stats.terminations_due_to_timeout + 1 }
      else stats
    { handle := step.1, stats := stats1, signals := step.2 }
  else
    { handle := p, stats := stats, signals := [] }

/-- Embeds `monitor_output` (Work.py lines 94-97): for each line of the
combined output stream, write the stripped line to the log sink and increment
`lines_logged`.  Returns the log sink contents and the statistics after the
stream is exhausted. -/
def monitor_output : List String → List String → RunStatistics →
    List String × RunStatistics
  | [], log, stats => (log, stats)
  | line :: rest, log, stats =>
      monitor_output rest (log ++ [line.trim])
        { stats with lines_logged := stats.lines_logged + 1 }

/-- Embeds `generate_report` (Work.py lines 121-132): the terminal log entry
renders exactly the five statistics fields. -/
structure Report where
  total_runtime : ℚ
  restarts : Nat
  terminations_due_to_timeout : Nat
  crashes : Nat
  lines_logged : Nat
deriving DecidableEq

/-- The field-for-field content of the final report (Work.py lines 121-132). -/
def generate_report (stats : RunStatistics) : Report :=
  { total_runtime := stats.total_runtime, restarts := stats.restarts,
    terminations_due_to_timeout := stats.terminations_due_to_timeout,
    crashes := stats.crashes, lines_logged := stats.lines_logged }

/-- Behaviour of one spawned process instance, one per iteration of the
supervision loop.  `spawnOk` is whether `subprocess.Popen` succeeds (line
157-163); `exitCode` is `process.returncode` once reaped; `runtime` is the
elapsed wall-clock time measured at line 199; `outputLines` is the combined
stdout/stderr line sequence; `timedOut` is whether the armed watchdog timer
fired during this instance and found the process alive; `termRaises` and
`voluntaryExitTime` describe the handle exactly as in `ProcHandle`, for the
case where the interrupt handler terminates this instance. -/
structure InstanceSpec where
  spawnOk : Bool
  exitCode : Int
  runtime : ℚ
  outputLines : List String
  timedOut : Bool
  termRaises : Bool
  voluntaryExitTime : Option ℚ
deriving DecidableEq

/-- Program points of `ProcessMonitor.run` at which an external
KeyboardInterrupt can arrive in the model.  `duringWait k` is inside
`process.wait()` (line 198) while the process is alive, after the relay
thread has logged the first `k` output lines; `afterClassify` is between the
crash classification (line 211) and the restart-counter increment (line 215);
`duringSleep` is inside `time.sleep(1)` (line 217), after the restart-counter
increment. -/
inductive InterruptPoint where
  | duringWait (k : Nat)
  | afterClassify
  | duringSleep
deriving DecidableEq

/-- Result of one `ProcessMonitor.run` session: final statistics, log-sink
contents from the relay, the event trace, and the supervisor process exit
status (1 after a fatal spawn failure via `sys.exit(1)`, line 168, else 0). -/
structure SessionResult where
  stats : RunStatistics
  log : List String
  events : List Event
  exitStatus : Nat
deriving DecidableEq

/-- The Python guard `if self.config.timeout:` (line 193) by Python truthiness:
the timer is armed only when a non-zero timeout is configured. -/
def timerArmed (cfg : ProcessConfig) : Bool :=
  match cfg.timeout with
  | some t => decide (t ≠ 0)
  | none => false

/-- Embeds `ProcessMonitor.handle_timeout` (Work.py lines 170-178): the
watchdog invokes the termination controller with timeout attribution. -/
def ProcessMonitor.handle_timeout (p : ProcHandle) (stats : RunStatistics) :
    TermResult :=
  terminate_process p stats true

/-- Embeds the reap phase of one loop iteration (Work.py lines 198-212) for a
process instance whose `wait()` returned: any timeout attribution done by the
watchdog thread during the wait (timer fires only if armed, line 193-196, and
its `handle_timeout` found the process alive), then the runtime accumulation
(lines 199-200), the relay join which has logged every output line (lines
189-190 and 206, via `monitor_output`), and the crash classification (lines
209-211). -/
def reapInstance (cfg : ProcessConfig) (inst : InstanceSpec)
    (log : List String) (stats : RunStatistics) :
    List String × RunStatistics :=
  let s1 :=
    if timerArmed cfg && inst.timedOut then
      (ProcessMonitor.handle_timeout
        { running := true, termRaises := inst.termRaises,
          voluntaryExitTime := inst.voluntaryExitTime } stats).stats
    else stats
  let s2 := { s1 with total_runtime := s1.total_runtime + inst.runtime }
  let step := monitor_output inst.outputLines log s2
  let s4 :=
    if inst.exitCode ≠ 0 then
      { step.2 with crashes := step.2.crashes + 1 }
    else step.2
  (step.1, s4)

/-- Prefixes the spawn event of the current iteration to the trace of the
rest of the session. -/
def tagSpawned (r : SessionResult) : SessionResult :=
  { stats := r.stats, log := r.log, events := Event.spawned :: r.events,
    exitStatus := r.exitStatus }

/-- Embeds `ProcessMonitor.run` (Work.py lines 180-227).  `insts` gives the
behaviour of the successive spawned instances (the model returns `none` when
the loop would iterate beyond the supplied behaviours); `intr` optionally
gives the iteration index and program point at which KeyboardInterrupt
arrives.  Control flow mirrors the source: a spawn failure raises SystemExit
through the `finally` (report, exit status 1); a KeyboardInterrupt during
`process.wait()` runs the handler at lines 221-224, whose `poll()` check sees
the live process and calls `terminate_process` without timeout attribution;
an interrupt after the process has been reaped skips the `terminate_process`
call (the `poll()` check sees the exited process) and goes straight to the
`finally` report; with the restart flag clear the loop breaks and reports. -/
def ProcessMonitor.run (cfg : ProcessConfig) (stats : RunStatistics)
    (log : List String) (insts : List InstanceSpec)
    (intr : Option (Nat × InterruptPoint)) : Option SessionResult :=
  match insts with
  | [] => none
  | inst :: rest =>
    if inst.spawnOk then
      match intr with
      | some (0, InterruptPoint.duringWait k) =>
          let relayed := inst.outputLines.take k
          let step := monitor_output relayed log stats
          let tr := terminate_process
            { running := true, termRaises := inst.termRaises,
              voluntaryExitTime := inst.voluntaryExitTime } step.2 false
          some { stats := tr.stats, log := step.1,
                 events := Event.spawned :: (tr.signals ++ [Event.report]),
                 exitStatus := 0 }
      | some (0, InterruptPoint.afterClassify) =>
          let step := reapInstance cfg inst log stats
          some { stats := step.2, log := step.1,
                 events := [Event.spawned, Event.report], exitStatus := 0 }
      | some (0, InterruptPoint.duringSleep) =>
          let step := reapInstance cfg inst log stats
          if cfg.restart then
            some { stats := { step.2 with restarts := step.2.restarts + 1 },
                   log := step.1, events := [Event.spawned, Event.report],
                   exitStatus := 0 }
          else
            some { stats := step.2, log := step.1,
                   events := [Event.spawned, Event.report], exitStatus := 0 }
      | some (Nat.succ n, pt) =>
          let step := reapInstance cfg inst log stats
          if cfg.restart then
            (ProcessMonitor.run cfg
                { step.2 with restarts := step.2.restarts + 1 }
                step.1 rest (some (n, pt))).map tagSpawned
          else
            some { stats := step.2, log := step.1,
                   events := [Event.spawned, Event.report], exitStatus := 0 }
      | none =>
          let step := reapInstance cfg inst log stats
          if cfg.restart then
            (ProcessMonitor.run cfg
                { step.2 with restarts := step.2.restarts + 1 }
                step.1 rest none).map tagSpawned
          else
            some { stats := step.2, log := step.1,
                   events := [Event.spawned, Event.report], exitStatus := 0 }
    else
      some { stats := stats, log := log,
             events := [Event.spawnFailed, Event.report], exitStatus := 1 }

/-- Number of report events in a trace. -/
def countReport : List Event → Nat
  | [] => 0
  | Event.report :: es => countReport es + 1
  | _ :: es => countReport es

/-- Componentwise order on statistics records: every counter of the first is
at most the corresponding counter of the second. -/
def statsLE (s t : RunStatistics) : Prop :=
  s.total_runtime ≤ t.total_runtime ∧ s.restarts ≤ t.restarts ∧
  s.terminations_due_to_timeout ≤ t.terminations_due_to_timeout ∧
  s.crashes ≤ t.crashes ∧ s.lines_logged ≤ t.lines_logged

instance (s t : RunStatistics) : Decidable (statsLE s t) := by
  unfold statsLE
  infer_instance

/-! ### Helper lemmas about the components -/

theorem monitor_output_spec (lines log : List String) (stats : RunStatistics) :
    monitor_output lines log stats =
      (log ++ lines.map String.trim,
       { stats with lines_logged := stats.lines_logged + lines.length }) := by
  induction lines generalizing log stats with
  | nil => simp [monitor_output]
  | cons line rest ih =>
      simp [monitor_output, ih, List.append_assoc]
      omega

theorem terminate_process_stats_plain (p : ProcHandle) (s : RunStatistics) :
    (terminate_process p s false).stats = s := by
  unfold terminate_process
  split <;> simp

theorem terminate_process_not_running (p : ProcHandle) (s : RunStatistics)
    (b : Bool) (h : p.running = false) :
    terminate_process p s b = { handle := p, stats := s, signals := [] } := by
  unfold terminate_process
  simp [h]

theorem terminate_process_signals_no_report (p : ProcHandle)
    (s : RunStatistics) (b : Bool) :
    countReport (terminate_process p s b).signals = 0 := by
  unfold terminate_process
  split
  · split
    · simp [countReport]
    · split <;> simp [countReport]
  · simp [countReport]

theorem reapInstance_log (cfg : ProcessConfig) (inst : InstanceSpec)
    (log : List String) (s : RunStatistics) :
    (reapInstance cfg inst log s).1 = log ++ inst.outputLines.map String.trim := by
  unfold reapInstance
  split <;> simp [monitor_output_spec]

theorem reapInstance_stats (cfg : ProcessConfig) (inst : InstanceSpec)
    (log : List String) (s : RunStatistics) :
    (reapInstance cfg inst log s).2 =
      { total_runtime := s.total_runtime + inst.runtime,
        restarts := s.restarts,
        terminations_due_to_timeout := s.terminations_due_to_timeout +
          (if timerArmed cfg && inst.timedOut then 1 else 0),
        crashes := s.crashes + (if inst.exitCode ≠ 0 then 1 else 0),
        lines_logged := s.lines_logged + inst.outputLines.length } := by
  by_cases ht : timerArmed cfg && inst.timedOut <;>
    by_cases he : inst.exitCode = 0 <;>
      simp [reapInstance, ProcessMonitor.handle_timeout, terminate_process,
            monitor_output_spec, ht, he]

/-! ### Claims about the Termination Controller -/

/-- C2: termination of a process handle follows the escalation protocol: on an
already-exited handle (non-blocking check) it is a no-op sending no signal and
changing no statistics, hence idempotent; on a live handle (error-free path) a
graceful termination request is sent, and exactly when the process does not
exit voluntarily within the 5-second grace period a forced kill follows and
exit is confirmed (the resulting handle is no longer running). -/
theorem terminate_process_escalation (p : ProcHandle) (s : RunStatistics)
    (b : Bool) :
    (p.running = false →
      terminate_process p s b = { handle := p, stats := s, signals := [] }) ∧
    (p.running = true → p.termRaises = false → exitsWithinGrace p = true →
      (terminate_process p s b).handle = { p with running := false } ∧
      (terminate_process p s b).signals = [Event.sigTerm]) ∧
    (p.running = true → p.termRaises = false → exitsWithinGrace p = false →
      (terminate_process p s b).handle = { p with running := false } ∧
      (terminate_process p s b).signals = [Event.sigTerm, Event.sigKill]) ∧
    ((terminate_process p s false).stats = s) := by
  refine ⟨?_, ?_, ?_, terminate_process_stats_plain p s⟩
  · intro h
    exact terminate_process_not_running p s b h
  · intro h hr hg
    unfold terminate_process
    simp [h, hr, hg]
  · intro h hr hg
    unfold terminate_process
    simp [h, hr, hg]

theorem terminate_process_escalation_witness :
    terminate_process ⟨false, false, none⟩ initStats true =
      { handle := ⟨false, false, none⟩, stats := initStats, signals := [] } ∧
    (terminate_process ⟨true, false, some 1⟩ initStats false).signals =
      [Event.sigTerm] ∧
    (terminate_process ⟨true, false, none⟩ initStats false).signals =
      [Event.sigTerm, Event.sigKill] := by
  refine ⟨(terminate_process_escalation ⟨false, false, none⟩ initStats true).1
    rfl, ?_, ?_⟩
  · exact ((terminate_process_escalation ⟨true, false, some 1⟩ initStats
      false).2.1 rfl rfl (by decide)).2
  · exact ((terminate_process_escalation ⟨true, false, none⟩ initStats
      false).2.2.1 rfl rfl (by decide)).2

/-- C3 counterexample: the claim says the timeout counter is incremented
whenever termination is invoked with `due_to_timeout = true`, but on an
already-exited handle the `finally` block is never entered (it is nested
inside the `poll()` guard, Work.py lines 101 and 116-118), so the counter is
not incremented. -/
theorem terminate_process_timeout_always_counterexample :
    (terminate_process ⟨false, false, none⟩ initStats
        true).stats.terminations_due_to_timeout ≠
      initStats.terminations_due_to_timeout + 1 := by
  decide

/-- C3 amended: whenever termination is invoked with `due_to_timeout = true`
on a handle whose non-blocking check shows it still running, the timeout
counter is incremented exactly once — including when the termination steps
raise an internal error, because the increment sits in the `finally` block
(Work.py lines 116-118). -/
theorem terminate_process_timeout_increment_running (p : ProcHandle)
    (s : RunStatistics) (h : p.running = true) :
    (terminate_process p s true).stats.terminations_due_to_timeout =
      s.terminations_due_to_timeout + 1 := by
  unfold terminate_process
  simp [h]

theorem terminate_process_timeout_increment_running_witness :
    (terminate_process ⟨true, true, none⟩ initStats
        true).stats.terminations_due_to_timeout =
      initStats.terminations_due_to_timeout + 1 :=
  terminate_process_timeout_increment_running ⟨true, true, none⟩ initStats rfl

/-- C9: invoking `terminate_process` with `due_to_timeout = true` on an
already-exited handle does not increment the timeout counter at all: the
`finally`-block increment is nested inside the branch taken only when the
process is still running. -/
theorem terminate_process_timeout_skipped_when_exited (p : ProcHandle)
    (s : RunStatistics) (h : p.running = false) :
    (terminate_process p s true).stats.terminations_due_to_timeout =
      s.terminations_due_to_timeout := by
  rw [terminate_process_not_running p s true h]

theorem terminate_process_timeout_skipped_when_exited_witness :
    (terminate_process ⟨false, true, some 2⟩ initStats
        true).stats.terminations_due_to_timeout =
      initStats.terminations_due_to_timeout :=
  terminate_process_timeout_skipped_when_exited ⟨false, true, some 2⟩
    initStats rfl

/-! ### Equation lemmas for the supervision loop -/

theorem run_nil (cfg : ProcessConfig) (s : RunStatistics) (log : List String)
    (intr : Option (Nat × InterruptPoint)) :
    ProcessMonitor.run cfg s log [] intr = none := rfl

theorem run_spawn_failure (cfg : ProcessConfig) (s : RunStatistics)
    (log : List String) (inst : InstanceSpec) (rest : List InstanceSpec)
    (intr : Option (Nat × InterruptPoint)) (h : inst.spawnOk = false) :
    ProcessMonitor.run cfg s log (inst :: rest) intr =
      some { stats := s, log := log,
             events := [Event.spawnFailed, Event.report], exitStatus := 1 } := by
  unfold ProcessMonitor.run
  simp [h]

theorem run_interrupt_wait (cfg : ProcessConfig) (s : RunStatistics)
    (log : List String) (inst : InstanceSpec) (rest : List InstanceSpec)
    (k : Nat) (h : inst.spawnOk = true) :
    ProcessMonitor.run cfg s log (inst :: rest)
        (some (0, InterruptPoint.duringWait k)) =
      some { stats := (terminate_process
               { running := true, termRaises := inst.termRaises,
                 voluntaryExitTime := inst.voluntaryExitTime }
               (monitor_output (inst.outputLines.take k) log s).2 false).stats,
             log := (monitor_output (inst.outputLines.take k) log s).1,
             events := Event.spawned ::
               ((terminate_process
                  { running := true, termRaises := inst.termRaises,
                    voluntaryExitTime := inst.voluntaryExitTime }
                  (monitor_output (inst.outputLines.take k) log s).2
                  false).signals ++ [Event.report]),
             exitStatus := 0 } := by
  unfold ProcessMonitor.run
  simp [h]

theorem run_interrupt_classify (cfg : ProcessConfig) (s : RunStatistics)
    (log : List String) (inst : InstanceSpec) (rest : List InstanceSpec)
    (h : inst.spawnOk = true) :
    ProcessMonitor.run cfg s log (inst :: rest)
        (some (0, InterruptPoint.afterClassify)) =
      some { stats := (reapInstance cfg inst log s).2,
             log := (reapInstance cfg inst log s).1,
             events := [Event.spawned, Event.report], exitStatus := 0 } := by
  unfold ProcessMonitor.run
  simp [h]

theorem run_interrupt_sleep (cfg : ProcessConfig) (s : RunStatistics)
    (log : List String) (inst : InstanceSpec) (rest : List InstanceSpec)
    (h : inst.spawnOk = true) (hr : cfg.restart = true) :
    ProcessMonitor.run cfg s log (inst :: rest)
        (some (0, InterruptPoint.duringSleep)) =
      some { stats := { (reapInstance cfg inst log s).2 with
               restarts := (reapInstance cfg inst log s).2.restarts + 1 },
             log := (reapInstance cfg inst log s).1,
             events := [Event.spawned, Event.report], exitStatus := 0 } := by
  unfold ProcessMonitor.run
  simp [h, hr]

theorem run_break (cfg : ProcessConfig) (s : RunStatistics)
    (log : List String) (inst : InstanceSpec) (rest : List InstanceSpec)
    (intr : Option (Nat × InterruptPoint)) (h : inst.spawnOk = true)
    (hr : cfg.restart = false)
    (hi : ∀ pt : InterruptPoint, intr ≠ some (0, pt)) :
    ProcessMonitor.run cfg s log (inst :: rest) intr =
      some { stats := (reapInstance cfg inst log s).2,
             log := (reapInstance cfg inst log s).1,
             events := [Event.spawned, Event.report], exitStatus := 0 } := by
  unfold ProcessMonitor.run
  rcases intr with _ | ⟨n, pt⟩
  · simp [h, hr]
  · rcases n with _ | n
    · exact absurd rfl (hi pt)
    · simp [h, hr]

theorem run_continue (cfg : ProcessConfig) (s : RunStatistics)
    (log : List String) (inst : InstanceSpec) (rest : List InstanceSpec)
    (n : Nat) (pt : InterruptPoint) (h : inst.spawnOk = true)
    (hr : cfg.restart = true) :
    ProcessMonitor.run cfg s log (inst :: rest) (some (n + 1, pt)) =
      (ProcessMonitor.run cfg
          { (reapInstance cfg inst log s).2 with
            restarts := (reapInstance cfg inst log s).2.restarts + 1 }
          (reapInstance cfg inst log s).1 rest (some (n, pt))).map
        tagSpawned := by
  conv_lhs => rw [ProcessMonitor.run.eq_def]
  simp [h, hr]

theorem run_continue_none (cfg : ProcessConfig) (s : RunStatistics)
    (log : List String) (inst : InstanceSpec) (rest : List InstanceSpec)
    (h : inst.spawnOk = true) (hr : cfg.restart = true) :
    ProcessMonitor.run cfg s log (inst :: rest) none =
      (ProcessMonitor.run cfg
          { (reapInstance cfg inst log s).2 with
            restarts := (reapInstance cfg inst log s).2.restarts + 1 }
          (reapInstance cfg inst log s).1 rest none).map
        tagSpawned := by
  conv_lhs => rw [ProcessMonitor.run.eq_def]
  simp [h, hr]

theorem run_interrupt_sleep_norestart (cfg : ProcessConfig)
    (s : RunStatistics) (log : List String) (inst : InstanceSpec)
    (rest : List InstanceSpec) (h : inst.spawnOk = true)
    (hr : cfg.restart = false) :
    ProcessMonitor.run cfg s log (inst :: rest)
        (some (0, InterruptPoint.duringSleep)) =
      some { stats := (reapInstance cfg inst log s).2,
             log := (reapInstance cfg inst log s).1,
             events := [Event.spawned, Event.report], exitStatus := 0 } := by
  unfold ProcessMonitor.run
  simp [h, hr]

/-! ### Trace and monotonicity helpers -/

theorem countReport_append (xs ys : List Event) :
    countReport (xs ++ ys) = countReport xs + countReport ys := by
  induction xs with
  | nil => simp [countReport]
  | cons x xs ih => cases x <;> simp [countReport, ih] <;> omega

theorem statsLE_trans {s t u : RunStatistics} (h1 : statsLE s t)
    (h2 : statsLE t u) : statsLE s u := by
  obtain ⟨a1, b1, c1, d1, e1⟩ := h1
  obtain ⟨a2, b2, c2, d2, e2⟩ := h2
  exact ⟨le_trans a1 a2, le_trans b1 b2, le_trans c1 c2, le_trans d1 d2,
    le_trans e1 e2⟩

theorem terminate_process_mono (p : ProcHandle) (s : RunStatistics)
    (b : Bool) : statsLE s (terminate_process p s b).stats := by
  unfold terminate_process statsLE
  by_cases hp : p.running = true <;> by_cases hb : b = true <;>
    simp [hp, hb, Nat.le_add_right]

theorem monitor_output_mono (lines log : List String) (s : RunStatistics) :
    statsLE s (monitor_output lines log s).2 := by
  rw [monitor_output_spec]
  exact ⟨le_rfl, le_rfl, le_rfl, le_rfl, Nat.le_add_right _ _⟩

theorem reapInstance_mono (cfg : ProcessConfig) (inst : InstanceSpec)
    (log : List String) (s : RunStatistics) (h : 0 ≤ inst.runtime) :
    statsLE s (reapInstance cfg inst log s).2 := by
  rw [reapInstance_stats]
  unfold statsLE
  dsimp only
  refine ⟨le_add_of_nonneg_right h, le_rfl, ?_, ?_, Nat.le_add_right _ _⟩ <;>
    split <;> omega

theorem statsLE_restart_bump (s : RunStatistics) :
    statsLE s { s with restarts := s.restarts + 1 } :=
  ⟨le_rfl, Nat.le_succ _, le_rfl, le_rfl, le_rfl⟩

/-! ### Concrete fixtures for witness instantiations -/

/-- A configuration with the restart flag clear and no timeout. -/
def cfgNoRestart : ProcessConfig :=
  { command := ["cmd"], logfile := "out", restart := false, timeout := none }

/-- A configuration with the restart flag set and no timeout. -/
def cfgRestart : ProcessConfig :=
  { command := ["cmd"], logfile := "out", restart := true, timeout := none }

/-- An instance that spawns, runs for one second, and exits cleanly with no
output. -/
def instClean : InstanceSpec :=
  { spawnOk := true, exitCode := 0, runtime := 1, outputLines := [],
    timedOut := false, termRaises := false, voluntaryExitTime := none }

/-- An instance that spawns and exits immediately with code 1. -/
def instCrash : InstanceSpec :=
  { spawnOk := true, exitCode := 1, runtime := 2, outputLines := [],
    timedOut := false, termRaises := false, voluntaryExitTime := none }

/-- An instance that spawns, exits cleanly, and emits one output line. -/
def instLine : InstanceSpec :=
  { spawnOk := true, exitCode := 0, runtime := 1, outputLines := ["hi"],
    timedOut := false, termRaises := false, voluntaryExitTime := some 1 }

/-- An instance whose spawn fails (executable not found). -/
def instNoSpawn : InstanceSpec :=
  { spawnOk := false, exitCode := 0, runtime := 0, outputLines := [],
    timedOut := false, termRaises := false, voluntaryExitTime := none }

/-! ### Claims about the supervision loop -/

/-- C7: on every exit path of the supervision loop modelled here — normal
stop with the restart flag clear, external interruption at any modelled
program point of any iteration, and fatal spawn failure — the final report is
generated and logged exactly once (the event trace contains exactly one
report event, coming from the `finally` block at Work.py lines 225-227). -/
theorem run_report_exactly_once (cfg : ProcessConfig) (s : RunStatistics)
    (log : List String) (insts : List InstanceSpec)
    (intr : Option (Nat × InterruptPoint)) (r : SessionResult)
    (h : ProcessMonitor.run cfg s log insts intr = some r) :
    countReport r.events = 1 := by
  induction insts generalizing s log intr r with
  | nil => rw [run_nil] at h; exact absurd h (by simp)
  | cons inst rest ih =>
    by_cases hs : inst.spawnOk = true
    · rcases intr with _ | ⟨n, pt⟩
      · by_cases hr : cfg.restart = true
        · rw [run_continue_none cfg s log inst rest hs hr] at h
          rcases Option.map_eq_some'.mp h with ⟨r', h', hrr⟩
          subst hrr
          simpa [tagSpawned, countReport] using ih _ _ _ _ h'
        · rw [run_break cfg s log inst rest none hs
            (Bool.eq_false_iff.mpr hr) (by simp)] at h
          injection h with h
          subst h
          simp [countReport]
      · rcases n with _ | n
        · rcases pt with k | _ | _
          · rw [run_interrupt_wait cfg s log inst rest k hs] at h
            injection h with h
            subst h
            simp [countReport, countReport_append,
              terminate_process_signals_no_report]
          · rw [run_interrupt_classify cfg s log inst rest hs] at h
            injection h with h
            subst h
            simp [countReport]
          · by_cases hr : cfg.restart = true
            · rw [run_interrupt_sleep cfg s log inst rest hs hr] at h
              injection h with h
              subst h
              simp [countReport]
            · rw [run_interrupt_sleep_norestart cfg s log inst rest hs
                (Bool.eq_false_iff.mpr hr)] at h
              injection h with h
              subst h
              simp [countReport]
        · by_cases hr : cfg.restart = true
          · rw [run_continue cfg s log inst rest n pt hs hr] at h
            rcases Option.map_eq_some'.mp h with ⟨r', h', hrr⟩
            subst hrr
            simpa [tagSpawned, countReport] using ih _ _ _ _ h'
          · rw [run_break cfg s log inst rest (some (n + 1, pt)) hs
              (Bool.eq_false_iff.mpr hr) (by simp)] at h
            injection h with h
            subst h
            simp [countReport]
    · rw [run_spawn_failure cfg s log inst rest intr
        (Bool.eq_false_iff.mpr hs)] at h
      injection h with h
      subst h
      simp [countReport]

theorem run_report_exactly_once_witness :
    countReport [Event.spawned, Event.report] = 1 :=
  run_report_exactly_once cfgNoRestart initStats [] [instClean] none
    { stats := { total_runtime := 1, restarts := 0,
                 terminations_due_to_timeout := 0, crashes := 0,
                 lines_logged := 0 },
      log := [], events := [Event.spawned, Event.report], exitStatus := 0 }
    (by
      rw [run_break cfgNoRestart initStats [] instClean [] none rfl rfl
        (by simp)]
      simp [reapInstance_stats, reapInstance_log, instClean, initStats,
        timerArmed, cfgNoRestart])

/-- C8: every counter field of `RunStatistics` is monotonically non-decreasing
across each of the three mutating operations of a session — the termination
controller, the output relay, and the whole supervision loop (given that
measured instance runtimes are non-negative) — and is never reset. -/
theorem statistics_monotone :
    (∀ (p : ProcHandle) (s : RunStatistics) (b : Bool),
       statsLE s (terminate_process p s b).stats) ∧
    (∀ (lines log : List String) (s : RunStatistics),
       statsLE s (monitor_output lines log s).2) ∧
    (∀ (cfg : ProcessConfig) (insts : List InstanceSpec) (s : RunStatistics)
       (log : List String) (intr : Option (Nat × InterruptPoint))
       (r : SessionResult), (∀ i ∈ insts, 0 ≤ i.runtime) →
       ProcessMonitor.run cfg s log insts intr = some r →
       statsLE s r.stats) := by
  refine ⟨terminate_process_mono, monitor_output_mono, ?_⟩
  intro cfg insts
  induction insts with
  | nil =>
      intro s log intr r _ h
      rw [run_nil] at h
      exact absurd h (by simp)
  | cons inst rest ih =>
    intro s log intr r hrt h
    have h0 : (0 : ℚ) ≤ inst.runtime := hrt inst (by simp)
    have hrest : ∀ i ∈ rest, (0 : ℚ) ≤ i.runtime :=
      fun i hi => hrt i (by simp [hi])
    by_cases hs : inst.spawnOk = true
    · rcases intr with _ | ⟨n, pt⟩
      · by_cases hr : cfg.restart = true
        · rw [run_continue_none cfg s log inst rest hs hr] at h
          rcases Option.map_eq_some'.mp h with ⟨r', h', hrr⟩
          subst hrr
          refine statsLE_trans (statsLE_trans (reapInstance_mono cfg inst log
            s h0) (statsLE_restart_bump _)) ?_
          simpa [tagSpawned] using ih _ _ _ _ hrest h'
        · rw [run_break cfg s log inst rest none hs
            (Bool.eq_false_iff.mpr hr) (by simp)] at h
          injection h with h
          subst h
          exact reapInstance_mono cfg inst log s h0
      · rcases n with _ | n
        · rcases pt with k | _ | _
          · rw [run_interrupt_wait cfg s log inst rest k hs] at h
            injection h with h
            subst h
            simp only [terminate_process_stats_plain]
            exact monitor_output_mono _ _ _
          · rw [run_interrupt_classify cfg s log inst rest hs] at h
            injection h with h
            subst h
            exact reapInstance_mono cfg inst log s h0
          · by_cases hr : cfg.restart = true
            · rw [run_interrupt_sleep cfg s log inst rest hs hr] at h
              injection h with h
              subst h
              exact statsLE_trans (reapInstance_mono cfg inst log s h0)
                (statsLE_restart_bump _)
            · rw [run_interrupt_sleep_norestart cfg s log inst rest hs
                (Bool.eq_false_iff.mpr hr)] at h
              injection h with h
              subst h
              exact reapInstance_mono cfg inst log s h0
        · by_cases hr : cfg.restart = true
          · rw [run_continue cfg s log inst rest n pt hs hr] at h
            rcases Option.map_eq_some'.mp h with ⟨r', h', hrr⟩
            subst hrr
            refine statsLE_trans (statsLE_trans (reapInstance_mono cfg inst
              log s h0) (statsLE_restart_bump _)) ?_
            simpa [tagSpawned] using ih _ _ _ _ hrest h'
          · rw [run_break cfg s log inst rest (some (n + 1, pt)) hs
              (Bool.eq_false_iff.mpr hr) (by simp)] at h
            injection h with h
            subst h
            exact reapInstance_mono cfg inst log s h0
    · rw [run_spawn_failure cfg s log inst rest intr
        (Bool.eq_false_iff.mpr hs)] at h
      injection h with h
      subst h
      exact ⟨le_rfl, le_rfl, le_rfl, le_rfl, le_rfl⟩

theorem statistics_monotone_witness :
    statsLE initStats { total_runtime := 1, restarts := 0,
                        terminations_due_to_timeout := 0, crashes := 0,
                        lines_logged := 0 } :=
  statistics_monotone.2.2 cfgNoRestart [instClean] initStats [] none
    { stats := { total_runtime := 1, restarts := 0,
                 terminations_due_to_timeout := 0, crashes := 0,
                 lines_logged := 0 },
      log := [], events := [Event.spawned, Event.report], exitStatus := 0 }
    (by decide)
    (by
      rw [run_break cfgNoRestart initStats [] instClean [] none rfl rfl
        (by simp)]
      simp [reapInstance_stats, reapInstance_log, instClean, initStats,
        timerArmed, cfgNoRestart])

/-- C4: for every reaped process instance, the crash counter increases by
exactly 1 when the exit code is non-zero and is unchanged when it is 0; this
is independent of, and additional to, the timeout-termination counter update
for the same instance (Work.py lines 209-212). -/
theorem reap_crash_classification (cfg : ProcessConfig) (inst : InstanceSpec)
    (log : List String) (s : RunStatistics) :
    (reapInstance cfg inst log s).2.crashes =
      s.crashes + (if inst.exitCode ≠ 0 then 1 else 0) ∧
    (reapInstance cfg inst log s).2.terminations_due_to_timeout =
      s.terminations_due_to_timeout +
        (if timerArmed cfg && inst.timedOut then 1 else 0) := by
  rw [reapInstance_stats]
  exact ⟨rfl, rfl⟩

theorem run_lines_accumulate (cfg : ProcessConfig) (insts : List InstanceSpec)
    (n : Nat) (s : RunStatistics) (log : List String) (r : SessionResult)
    (hall : ∀ i ∈ insts, i.spawnOk = true) (hr : cfg.restart = true)
    (h : ProcessMonitor.run cfg s log insts
        (some (n, InterruptPoint.duringSleep)) = some r) :
    r.log = log ++ ((insts.take (n + 1)).map
        (fun i => i.outputLines.map String.trim)).flatten ∧
    r.stats.lines_logged = s.lines_logged +
      ((insts.take (n + 1)).map (fun i => i.outputLines.length)).sum := by
  induction insts generalizing n s log r with
  | nil => rw [run_nil] at h; exact absurd h (by simp)
  | cons inst rest ih =>
    have hs : inst.spawnOk = true := hall inst (by simp)
    rcases n with _ | n
    · rw [run_interrupt_sleep cfg s log inst rest hs hr] at h
      injection h with h
      subst h
      constructor
      · simp [reapInstance_log]
      · simp [reapInstance_stats]
    · rw [run_continue cfg s log inst rest n _ hs hr] at h
      rcases Option.map_eq_some'.mp h with ⟨r', h', hrr⟩
      subst hrr
      obtain ⟨e1, e2⟩ := ih n _ _ r'
        (fun i hi => hall i (List.mem_cons_of_mem _ hi)) h'
      rw [reapInstance_log] at e1
      simp only [reapInstance_stats] at e2
      constructor
      · show r'.log = _
        rw [e1]
        simp [List.take_succ_cons, List.append_assoc]
      · show r'.stats.lines_logged = _
        simp only [List.take_succ_cons, List.map_cons, List.sum_cons]
        omega

/-- C5: the Output Relay writes each line of the combined output stream to
the log sink exactly once, in emission order (stripped, as the source does),
and increments the lines-logged counter once per line; consequently, for a
session whose instances all spawned and were all fully reaped (interrupt
arriving in the post-reap sleep of iteration `n`), the counter equals the
total line count across all instances of the session and the log sink holds
their lines in order. -/
theorem output_relay_lines :
    (∀ (lines log : List String) (s : RunStatistics),
       monitor_output lines log s =
         (log ++ lines.map String.trim,
          { s with lines_logged := s.lines_logged + lines.length })) ∧
    (∀ (cfg : ProcessConfig) (insts : List InstanceSpec) (n : Nat)
       (s : RunStatistics) (log : List String) (r : SessionResult),
       (∀ i ∈ insts, i.spawnOk = true) → cfg.restart = true →
       ProcessMonitor.run cfg s log insts
           (some (n, InterruptPoint.duringSleep)) = some r →
       r.log = log ++ ((insts.take (n + 1)).map
           (fun i => i.outputLines.map String.trim)).flatten ∧
       r.stats.lines_logged = s.lines_logged +
         ((insts.take (n + 1)).map (fun i => i.outputLines.length)).sum) :=
  ⟨monitor_output_spec, fun cfg insts n s log r hall hr h =>
    run_lines_accumulate cfg insts n s log r hall hr h⟩

/-- The concrete session result of the relay witness run: one instance, one
output line, interrupted in the post-reap sleep. -/
def relayWitnessResult : SessionResult :=
  { stats := { total_runtime := 1, restarts := 1,
               terminations_due_to_timeout := 0, crashes := 0,
               lines_logged := 1 },
    log := ["hi".trim], events := [Event.spawned, Event.report],
    exitStatus := 0 }

theorem output_relay_lines_witness :
    relayWitnessResult.log = [] ++ (([instLine].take 1).map
        (fun i => i.outputLines.map String.trim)).flatten ∧
    relayWitnessResult.stats.lines_logged = initStats.lines_logged +
      (([instLine].take 1).map (fun i => i.outputLines.length)).sum :=
  output_relay_lines.2 cfgRestart [instLine] 0 initStats [] relayWitnessResult
    (by decide) rfl
    (by
      rw [run_interrupt_sleep cfgRestart initStats [] instLine [] rfl rfl]
      simp [reapInstance_stats, reapInstance_log, instLine, initStats,
        timerArmed, cfgRestart, relayWitnessResult])

/-- C6: when spawning the configured command fails, the supervisor logs the
cause, the final report is still produced (the `finally` block runs while
SystemExit propagates), the process exits with the non-zero status 1, and no
restart is attempted — the session result does not depend on the remaining
instance behaviours or on the restart flag, and the restart counter is
unchanged (Work.py lines 156-168). -/
theorem spawn_failure_fatal (cfg : ProcessConfig) (s : RunStatistics)
    (log : List String) (inst : InstanceSpec) (rest : List InstanceSpec)
    (intr : Option (Nat × InterruptPoint)) (h : inst.spawnOk = false) :
    ProcessMonitor.run cfg s log (inst :: rest) intr =
      some { stats := s, log := log,
             events := [Event.spawnFailed, Event.report], exitStatus := 1 } ∧
    ∀ r, ProcessMonitor.run cfg s log (inst :: rest) intr = some r →
      r.exitStatus ≠ 0 ∧ r.stats.restarts = s.restarts := by
  have he := run_spawn_failure cfg s log inst rest intr h
  refine ⟨he, ?_⟩
  intro r hrr
  rw [he] at hrr
  injection hrr with hrr
  subst hrr
  exact ⟨by simp, rfl⟩

theorem spawn_failure_fatal_witness :
    ProcessMonitor.run cfgRestart initStats [] [instNoSpawn, instClean]
        none =
      some { stats := initStats, log := [],
             events := [Event.spawnFailed, Event.report], exitStatus := 1 } :=
  (spawn_failure_fatal cfgRestart initStats [] instNoSpawn [instClean] none
    rfl).1

/-- C10 counterexample: the claim says the final report reflects only
instances that were fully reaped before the interruption, but output lines
that the relay thread logged from the interrupted (never-reaped) instance
before the KeyboardInterrupt are counted: here no instance is reaped, yet the
reported lines-logged counter is 1, not its pre-instance value 0. -/
theorem interrupted_instance_counterexample :
    ¬ ((ProcessMonitor.run cfgNoRestart initStats [] [instLine]
          (some (0, InterruptPoint.duringWait 1))).map
        (fun r => r.stats.lines_logged) = some initStats.lines_logged) := by
  decide

/-- C10 amended: when a KeyboardInterrupt arrives while a process instance is
live inside `process.wait()`, the elapsed runtime of that instance is not
added to the cumulative total, its exit is not classified as a crash, and the
restart and timeout counters are likewise untouched — those four report
fields reflect only instances fully reaped before the interruption (the state
`s` accumulated so far); the lines-logged counter, however, additionally
includes the lines the relay logged from the interrupted instance before the
interrupt. -/
theorem interrupted_instance_frame (cfg : ProcessConfig) (s : RunStatistics)
    (log : List String) (inst : InstanceSpec) (rest : List InstanceSpec)
    (k : Nat) (r : SessionResult) (h : inst.spawnOk = true)
    (hrun : ProcessMonitor.run cfg s log (inst :: rest)
        (some (0, InterruptPoint.duringWait k)) = some r) :
    r.stats.total_runtime = s.total_runtime ∧
    r.stats.crashes = s.crashes ∧
    r.stats.restarts = s.restarts ∧
    r.stats.terminations_due_to_timeout = s.terminations_due_to_timeout ∧
    r.stats.lines_logged = s.lines_logged +
      (inst.outputLines.take k).length := by
  rw [run_interrupt_wait cfg s log inst rest k h] at hrun
  injection hrun with hrun
  subst hrun
  simp [terminate_process_stats_plain, monitor_output_spec]

/-- The concrete session result of the interrupted-while-live witness run:
one live instance with one relayed line, interrupted during the wait. -/
def waitWitnessResult : SessionResult :=
  { stats := { total_runtime := 0, restarts := 0,
               terminations_due_to_timeout := 0, crashes := 0,
               lines_logged := 1 },
    log := ["hi".trim],
    events := [Event.spawned, Event.sigTerm, Event.report], exitStatus := 0 }

theorem interrupted_instance_frame_witness :
    waitWitnessResult.stats.total_runtime = initStats.total_runtime ∧
    waitWitnessResult.stats.crashes = initStats.crashes ∧
    waitWitnessResult.stats.restarts = initStats.restarts ∧
    waitWitnessResult.stats.terminations_due_to_timeout =
      initStats.terminations_due_to_timeout ∧
    waitWitnessResult.stats.lines_logged = initStats.lines_logged +
      (instLine.outputLines.take 1).length :=
  interrupted_instance_frame cfgNoRestart initStats [] instLine [] 1
    waitWitnessResult rfl
    (by
      rw [run_interrupt_wait cfgNoRestart initStats [] instLine [] 1 rfl]
      have hg : exitsWithinGrace
          { running := true, termRaises := false,
            voluntaryExitTime := some 1 } = true := by decide
      simp [monitor_output_spec, terminate_process, hg, instLine, initStats,
        waitWitnessResult])

theorem run_crashloop (cfg : ProcessConfig) (m : Nat)
    (insts : List InstanceSpec) (s : RunStatistics) (log : List String)
    (hr : cfg.restart = true) (ht : timerArmed cfg = false)
    (hlen : m + 1 ≤ insts.length)
    (hall : ∀ i ∈ insts, i.spawnOk = true ∧ i.exitCode = 1) :
    ∃ r, ProcessMonitor.run cfg s log insts
        (some (m, InterruptPoint.afterClassify)) = some r ∧
      r.stats.restarts = s.restarts + m ∧
      r.stats.crashes = s.crashes + m + 1 ∧
      r.stats.terminations_due_to_timeout =
        s.terminations_due_to_timeout := by
  induction m generalizing insts s log with
  | zero =>
    rcases insts with _ | ⟨inst, rest⟩
    · simp at hlen
    · obtain ⟨hs, he⟩ := hall inst (by simp)
      refine ⟨_, run_interrupt_classify cfg s log inst rest hs, ?_, ?_, ?_⟩ <;>
        simp [reapInstance_stats, ht, he]
  | succ m ih =>
    rcases insts with _ | ⟨inst, rest⟩
    · simp at hlen
    · obtain ⟨hs, he⟩ := hall inst (by simp)
      obtain ⟨r', h', e1, e2, e3⟩ := ih rest
        { (reapInstance cfg inst log s).2 with
          restarts := (reapInstance cfg inst log s).2.restarts + 1 }
        (reapInstance cfg inst log s).1
        (by simpa using hlen)
        (fun i hi => hall i (List.mem_cons_of_mem _ hi))
      refine ⟨tagSpawned r', ?_, ?_, ?_, ?_⟩
      · rw [run_continue cfg s log inst rest m _ hs hr, h']
        rfl
      · show r'.stats.restarts = _
        simp only [reapInstance_stats] at e1
        simp only [e1]
        omega
      · show r'.stats.crashes = _
        simp only [reapInstance_stats, he] at e2
        simp only [e2]
        simp
        omega
      · show r'.stats.terminations_due_to_timeout = _
        simp only [reapInstance_stats, ht] at e3
        simpa using e3

/-- C1: for a command that always exits with code 1, run with the restart
flag set and no timeout, and externally interrupted after the third restart
(once the fourth crash had been classified but before the fourth restart
increment), the final report shows exactly restarts = 3, crashes = 4 (the
initial run plus three restarts), and timeout-terminations = 0. -/
theorem crashloop_interrupted_report (cfg : ProcessConfig)
    (insts : List InstanceSpec) (hr : cfg.restart = true)
    (ht : cfg.timeout = none) (hlen : 4 ≤ insts.length)
    (hall : ∀ i ∈ insts, i.spawnOk = true ∧ i.exitCode = 1) :
    ∃ r, ProcessMonitor.run cfg initStats [] insts
        (some (3, InterruptPoint.afterClassify)) = some r ∧
      (generate_report r.stats).restarts = 3 ∧
      (generate_report r.stats).crashes = 4 ∧
      (generate_report r.stats).terminations_due_to_timeout = 0 := by
  have ht' : timerArmed cfg = false := by simp [timerArmed, ht]
  obtain ⟨r, h, e1, e2, e3⟩ :=
    run_crashloop cfg 3 insts initStats [] hr ht' (by omega) hall
  refine ⟨r, h, ?_, ?_, ?_⟩ <;>
    simp [generate_report, e1, e2, e3, initStats]

theorem crashloop_interrupted_report_witness :
    ∃ r, ProcessMonitor.run cfgRestart initStats []
        [instCrash, instCrash, instCrash, instCrash]
        (some (3, InterruptPoint.afterClassify)) = some r ∧
      (generate_report r.stats).restarts = 3 ∧
      (generate_report r.stats).crashes = 4 ∧
      (generate_report r.stats).terminations_due_to_timeout = 0 :=
  crashloop_interrupted_report cfgRestart
    [instCrash, instCrash, instCrash, instCrash] rfl rfl (by decide)
    (by decide)
